import Mathlib

/-!
Shallow embedding of the hd-mobile client's report-store logic.

The embedded functions are translated from the React Native source:
  - the `Report` record shape, `SAMPLE_REPORTS` and `DEFAULT_LOCATION`
    constants, `fetchReports`, `handleReportSubmit`, `getMarkerColor`
    and the confirm / delete button handlers of the police-view screen
    (src/unnamed/part_003);
  - the `handleReportSubmit` of the citizen-view screen
    (src/hd-drunk/app/(tabs)/index.tsx, second component) and of the
    community screen (src/hd-drunk/app/(tabs)/explore.tsx);
  - the `getLocation` effect shared by the screens.

JavaScript numbers are modelled as `ℚ` (coordinates, Math.random draws)
and `ℤ` (probabilities, ids as `ℕ`); asynchronous outcomes (fetch
success / throw, race winner) are explicit parameters.
-/

namespace HdMobile

/-- The `Report` record of the police-view screen (src/unnamed/part_003,
type `Report`): `report_id`, coordinates, optional probability, free-text
descriptor, tri-state `confirm_bool` string and optional status string. -/
structure Report where
  report_id : ℕ
  latitude : ℚ
  longitude : ℚ
  probability : Option ℤ
  descriptor : String
  confirm_bool : String
  status : Option String := none
deriving Repr, DecidableEq

/-- A map region as used for the `region` state: centre coordinate plus
the two deltas. -/
structure RegionT where
  latitude : ℚ
  longitude : ℚ
  latitudeDelta : ℚ
  longitudeDelta : ℚ
deriving Repr, DecidableEq

/-- `DEFAULT_LOCATION`: the San Francisco fallback region. -/
def DEFAULT_LOCATION : RegionT :=
  { latitude := 3778825/100000
    longitude := -12243240/100000
    latitudeDelta := 222/10000
    longitudeDelta := 121/10000 }

/-- `SAMPLE_REPORTS` of the police-view screen (src/unnamed/part_003,
lines 20-53): four fixed sample records. -/
def SAMPLE_REPORTS : List Report :=
  [ { report_id := 1, latitude := 3778825/100000, longitude := -12243240/100000,
      probability := some 70, descriptor := "Vehicle swerving between lanes on highway",
      confirm_bool := "impaired" },
    { report_id := 2, latitude := 3779125/100000, longitude := -12243540/100000,
      probability := some 55, descriptor := "Driver exhibiting erratic behavior at intersection",
      confirm_bool := "impaired" },
    { report_id := 3, latitude := 3778525/100000, longitude := -12242940/100000,
      probability := some 70, descriptor := "Vehicle swerving between lanes on highway",
      confirm_bool := "impaired" },
    { report_id := 4, latitude := 3779125/100000, longitude := -12243540/100000,
      probability := some 55, descriptor := "Driver exhibiting erratic behavior at intersection",
      confirm_bool := "impaired" } ]

/-- JavaScript `x || d` for `x : number | undefined`: `undefined` and `0`
are falsy and yield the default, any other number is returned as is.
Models the expression `report.probability || 50`. -/
def jsOr (x : Option ℤ) (d : ℤ) : ℤ :=
  match x with
  | none => d
  | some v => if v = 0 then d else v

/-- `getMarkerColor` of the police-view screen (src/unnamed/part_003,
lines 489-507): confirmed reports (`confirm_bool != "null"`) get the dark
tone, unconfirmed ones one of four tier colors chosen by thresholds on
`report.probability || 50`. -/
def getMarkerColor (report : Report) : String :=
  if report.confirm_bool ≠ "null" then
    "#8B0000"
  else
    let probability := jsOr report.probability 50
    if 65 ≤ probability then "#FF0000"
    else if 50 ≤ probability then "#FF4500"
    else if 40 ≤ probability then "#FF8C00"
    else "#FFA500"

/-- Alarm level of a marker color tier: the four unconfirmed tiers in
increasing alarm order, the confirmed dark tone above all of them. -/
def alarmLevel : String → ℕ
  | "#FFA500" => 0
  | "#FF8C00" => 1
  | "#FF4500" => 2
  | "#FF0000" => 3
  | _ => 4

/-- An unconfirmed report with a given probability, for exercising
`getMarkerColor` on the probability axis. -/
def mkUnconfirmed (p : ℤ) : Report :=
  { report_id := 0, latitude := 0, longitude := 0, probability := some p,
    descriptor := "", confirm_bool := "null" }

/-- Body of the JSON response of GET /api/reports as the client reads it:
a possibly missing `status` field and a `reports` field that is either a
proper array of reports (`some`) or absent / not an array (`none`). -/
structure ApiBody where
  status : Option String
  reports : Option (List Report)
deriving Repr, DecidableEq

/-- Outcome of the `fetch` of the report list: either the call (or the
body parse) threw, or a response arrived with an HTTP status code and a
parsed body. -/
inductive FetchOutcome where
  | throwNet : FetchOutcome
  | response (httpStatus : ℕ) (body : ApiBody) : FetchOutcome
deriving Repr, DecidableEq

/-- `response.ok` of the Fetch API: the HTTP status is in [200, 299]. -/
def respOk (httpStatus : ℕ) : Bool :=
  200 ≤ httpStatus && httpStatus < 300

/-- `fetchReports` of the police-view screen (src/unnamed/part_003,
lines 199-230): a non-ok response throws into the catch, which falls
back to `SAMPLE_REPORTS`; a body whose `status` is not "success" or
whose `reports` is not an array also falls back; otherwise the fetched
array replaces the list. The function returns the report list the
handler stores via `setReports`. -/
def fetchReports (res : FetchOutcome) : List Report :=
  match res with
  | .throwNet => SAMPLE_REPORTS
  | .response st body =>
      if respOk st then
        if body.status = some "success" then
          match body.reports with
          | some rs => rs
          | none => SAMPLE_REPORTS
        else SAMPLE_REPORTS
      else SAMPLE_REPORTS

/-- Outcome of a fire-and-forget remote call (`fetch` POST / PUT /
DELETE): the awaited promise either resolves or throws. -/
inductive RemoteOutcome where
  | success : RemoteOutcome
  | throws : RemoteOutcome
deriving Repr, DecidableEq

/-- `30 + Math.floor(Math.random() * 41)`: the client-side random
probability, with the `Math.random()` draw `r` passed explicitly. -/
def randProbability (r : ℚ) : ℤ :=
  30 + ⌊r * 41⌋

/-- The synthesized `newReport` record of the police-view submit handler
(src/unnamed/part_003, lines 433-440): client id from `Date.now()`,
coordinates jittered around the map region by `(Math.random() - 0.5) *
0.01`, `confirm_bool` "null" and a random probability. -/
def mkNewReport (now : ℕ) (rProb rLat rLng : ℚ) (regionLat regionLng : ℚ)
    (descriptor : String) : Report :=
  { report_id := now
    descriptor := descriptor
    latitude := regionLat + (rLat - 1/2) * (1/100)
    longitude := regionLng + (rLng - 1/2) * (1/100)
    confirm_bool := "null"
    probability := some (randProbability rProb) }

/-- `handleReportSubmit` of the police-view screen (src/unnamed/part_003,
lines 424-463). The guard is the JS truthiness test `if (reportType &&
reportDescription)`; when it passes, the POST is awaited inside a
try/catch whose catch only logs, and the synthesized record is prepended
afterwards in either case. Returns the resulting report list and whether
a POST request was issued. -/
def handleReportSubmitPolice (reportType reportDescription : String)
    (now : ℕ) (rProb rLat rLng : ℚ) (regionLat regionLng : ℚ)
    (post : RemoteOutcome) (reports : List Report) : List Report × Bool :=
  if reportType = "" ∨ reportDescription = "" then
    (reports, false)
  else
    let newReport := mkNewReport now rProb rLat rLng regionLat regionLng reportDescription
    match post with
    | .success => (newReport :: reports, true)
    | .throws => (newReport :: reports, true)

/-- `handleReportSubmit` of the citizen-view screen
(src/hd-drunk/app/(tabs)/index.tsx, lines 1093-1138). Same guard and
synthesized record (without coordinate jitter: the region centre is used
as is), but `setReports([newReport, ...reports])` sits inside the try
block after the awaited POST, so a throwing POST skips the prepend and
only shows the error alert. -/
def handleReportSubmitCitizen (reportType reportDescription : String)
    (now : ℕ) (rProb : ℚ) (regionLat regionLng : ℚ)
    (post : RemoteOutcome) (reports : List Report) : List Report × Bool :=
  if reportType = "" ∨ reportDescription = "" then
    (reports, false)
  else
    let newReport : Report :=
      { report_id := now
        descriptor := reportDescription
        latitude := regionLat
        longitude := regionLng
        confirm_bool := "null"
        probability := some (randProbability rProb) }
    match post with
    | .success => (newReport :: reports, true)
    | .throws => (reports, true)

/-- The report record of the community screen
(src/hd-drunk/app/(tabs)/explore.tsx): legacy shape with a boolean
`confirmed` flag and no probability. -/
structure OldReport where
  id : ℕ
  type : String
  description : String
  latitude : ℚ
  longitude : ℚ
  timestamp : String
  confirmed : Bool
deriving Repr, DecidableEq

/-- `handleReportSubmit` of the community screen
(src/hd-drunk/app/(tabs)/explore.tsx, lines 267-284): purely local, no
remote call; the same truthiness guard protects the prepend. -/
def handleReportSubmitExplore (reportType reportDescription : String)
    (now : ℕ) (regionLat regionLng : ℚ)
    (reports : List OldReport) : List OldReport :=
  if reportType = "" ∨ reportDescription = "" then
    reports
  else
    { id := now, type := reportType, description := reportDescription,
      latitude := regionLat, longitude := regionLng,
      timestamp := "Just now", confirmed := false } :: reports

/-- Confirm button handler of the police-view screen
(src/unnamed/part_003, lines 655-680): the list is mapped, setting
`confirm_bool` to "safe" on every element whose `report_id` matches the
selected report, before the PUT is awaited; the catch only logs, so the
remote outcome does not influence the list. -/
def confirmOnPress (selectedId : ℕ) (put : RemoteOutcome)
    (reports : List Report) : List Report :=
  match put with
  | .success =>
      reports.map (fun r =>
        if r.report_id = selectedId then { r with confirm_bool := "safe" } else r)
  | .throws =>
      reports.map (fun r =>
        if r.report_id = selectedId then { r with confirm_bool := "safe" } else r)

/-- Delete button handler of the police-view screen
(src/unnamed/part_003, lines 706-737): the list is filtered to drop every
element whose `report_id` matches the selected report, before the DELETE
is awaited; the catch only logs, so the remote outcome does not influence
the list. -/
def deleteOnPress (selectedId : ℕ) (del : RemoteOutcome)
    (reports : List Report) : List Report :=
  match del with
  | .success => reports.filter (fun r => r.report_id ≠ selectedId)
  | .throws => reports.filter (fun r => r.report_id ≠ selectedId)

/-- The pieces of screen state the `getLocation` effect touches. -/
structure LocState where
  region : RegionT
  userLocation : ℚ × ℚ
  errorMsg : Option String
  isLoading : Bool
  /-- a `setTimeout` timer is armed and neither fired nor cleared -/
  timeoutPending : Bool
  /-- the 5000ms timeout callback has run -/
  timerFired : Bool
deriving Repr, DecidableEq

/-- Result of the permission request. -/
inductive PermStatus where
  | granted : PermStatus
  | denied : PermStatus
deriving Repr, DecidableEq

/-- Which of the two racing events settles first: the position promise
resolves with a coordinate before the 5000ms timer, it rejects before
the timer, or the timer fires first (the position has not resolved
within 5000ms). -/
inductive PositionRace where
  | resolvesFirst (lat lng : ℚ) : PositionRace
  | rejectsFirst : PositionRace
  | timerFirst : PositionRace
deriving Repr, DecidableEq

/-- `getLocation` of the community screen
(src/hd-drunk/app/(tabs)/explore.tsx, lines 100-155; the region and
timer logic is identical in src/hd-drunk/app/(tabs)/index.tsx, lines
251-322): on denial set the error and stop; otherwise arm a 5000ms
timer and await the position fetch. The function returns the screen
state right after the handler of the first-settled event has run: the
timer callback adopts `DEFAULT_LOCATION`; a resolving fetch clears the
timer and re-centres the region on the returned coordinate; a rejecting
fetch sets the error (the finally clause clears the timer). -/
def getLocation (perm : PermStatus) (race : PositionRace) (s : LocState) : LocState :=
  match perm with
  | .denied =>
      { s with errorMsg := some "Permission to access location was denied"
               isLoading := false }
  | .granted =>
      let armed := { s with timeoutPending := true }
      match race with
      | .timerFirst =>
          { armed with
              timeoutPending := false
              timerFired := true
              region := DEFAULT_LOCATION
              userLocation := (DEFAULT_LOCATION.latitude, DEFAULT_LOCATION.longitude)
              isLoading := false }
      | .resolvesFirst lat lng =>
          { armed with
              timeoutPending := false
              timerFired := false
              region := { latitude := lat, longitude := lng,
                          latitudeDelta := 222/10000, longitudeDelta := 121/10000 }
              userLocation := (lat, lng)
              isLoading := false }
      | .rejectsFirst =>
          { armed with
              timeoutPending := false
              timerFired := false
              errorMsg := some "Could not get your location. Using default location."
              isLoading := false }

/-- C2 counterexample: an unconfirmed report with probability exactly 0
is mapped by `getMarkerColor` to "#FF4500" (the 50-64 tier), not to
"#FFA500" as the claim's "probability < 40" tier requires, because the
JS expression `report.probability || 50` treats 0 as falsy. -/
theorem C2_counterexample :
    (mkUnconfirmed 0).confirm_bool = "null" ∧
    (mkUnconfirmed 0).probability = some 0 ∧ (0 : ℤ) < 40 ∧
    getMarkerColor (mkUnconfirmed 0) = "#FF4500" ∧
    getMarkerColor (mkUnconfirmed 0) ≠ "#FFA500" := by
  decide

/-- C2 (amended): a confirmed report (confirm_bool ≠ "null") gets the
fixed dark tone "#8B0000"; an unconfirmed report with a present, nonzero
probability p gets "#FF0000" if p ≥ 65, "#FF4500" if 50 ≤ p < 65,
"#FF8C00" if 40 ≤ p < 50 and "#FFA500" if p < 40; probability absent or
zero falls into the 50-64 tier. -/
theorem C2_amended_thm (r : Report) :
    (r.confirm_bool ≠ "null" → getMarkerColor r = "#8B0000") ∧
    (∀ p : ℤ, r.confirm_bool = "null" → r.probability = some p → 1 ≤ p →
      ((65 ≤ p → getMarkerColor r = "#FF0000") ∧
       (50 ≤ p ∧ p < 65 → getMarkerColor r = "#FF4500") ∧
       (40 ≤ p ∧ p < 50 → getMarkerColor r = "#FF8C00") ∧
       (p < 40 → getMarkerColor r = "#FFA500"))) := by
  constructor
  · intro hc
    simp [getMarkerColor, hc]
  · intro p hc hp h1
    have hp0 : ¬ p = 0 := by omega
    have e : getMarkerColor r =
        (if 65 ≤ p then "#FF0000" else if 50 ≤ p then "#FF4500"
         else if 40 ≤ p then "#FF8C00" else "#FFA500") := by
      simp [getMarkerColor, hc, hp, jsOr, hp0]
    rw [e]
    refine ⟨?_, ?_, ?_, ?_⟩ <;> intro h <;> split_ifs <;> first | rfl | omega

/-- Witness for C2 (amended) at an unconfirmed report with
probability 39: the lowest tier color is returned. -/
theorem C2_witness : getMarkerColor (mkUnconfirmed 39) = "#FFA500" :=
  (((C2_amended_thm (mkUnconfirmed 39)).2 39 rfl rfl (by decide)).2.2.2) (by decide)

/-- C9: an unconfirmed report whose probability is absent or exactly 0
is treated as probability 50 by `getMarkerColor` and colored "#FF4500",
the 50-64 tier. -/
theorem C9_thm (r : Report) (hc : r.confirm_bool = "null")
    (hp : r.probability = none ∨ r.probability = some 0) :
    getMarkerColor r = "#FF4500" := by
  rcases hp with hp | hp <;> simp [getMarkerColor, hc, hp, jsOr]

/-- Witness for C9 at a concrete report with absent probability. -/
theorem C9_witness :
    getMarkerColor { report_id := 9, latitude := 0, longitude := 0,
                     probability := none, descriptor := "swerving",
                     confirm_bool := "null", status := none } = "#FF4500" :=
  C9_thm _ rfl (Or.inl rfl)

/-- C6 counterexample: probabilities 39 ≥ 0, yet the tier of 39 has a
strictly smaller alarm level than the tier of 0 (0 is falsy so it is
treated as 50), refuting monotonicity over all probability values. -/
theorem C6_counterexample :
    (0 : ℤ) ≤ 39 ∧
    alarmLevel (getMarkerColor (mkUnconfirmed 39)) <
      alarmLevel (getMarkerColor (mkUnconfirmed 0)) := by
  decide

/-- C6 (amended): restricted to nonzero probabilities (1 ≤ p2 ≤ p1), the
alarm level of the marker color tier of an unconfirmed report is
monotone: the tier of the larger probability never has a smaller alarm
level. -/
theorem C6_amended_thm (p1 p2 : ℤ) (h1 : 1 ≤ p2) (h12 : p2 ≤ p1) :
    alarmLevel (getMarkerColor (mkUnconfirmed p2)) ≤
      alarmLevel (getMarkerColor (mkUnconfirmed p1)) := by
  have e : ∀ p : ℤ, 1 ≤ p → getMarkerColor (mkUnconfirmed p) =
      (if 65 ≤ p then "#FF0000" else if 50 ≤ p then "#FF4500"
       else if 40 ≤ p then "#FF8C00" else "#FFA500") := by
    intro p hp
    have hp0 : ¬ p = 0 := by omega
    simp [getMarkerColor, mkUnconfirmed, jsOr, hp0]
  rw [e p2 h1, e p1 (by omega)]
  split_ifs <;> first | decide | omega

/-- Witness for C6 (amended) at probabilities 70 ≥ 45. -/
theorem C6_witness :
    alarmLevel (getMarkerColor (mkUnconfirmed 45)) ≤
      alarmLevel (getMarkerColor (mkUnconfirmed 70)) :=
  C6_amended_thm 70 45 (by decide) (by decide)

/-- C3: if the reports endpoint answers with a non-2xx status, or the
body's `reports` field is absent / not an array, or the body's `status`
field is not "success", the stored report list is exactly the fixed
sample set. -/
theorem C3_thm (st : ℕ) (body : ApiBody)
    (h : respOk st = false ∨ body.reports = none ∨ body.status ≠ some "success") :
    fetchReports (.response st body) = SAMPLE_REPORTS := by
  unfold fetchReports
  rcases h with h | h | h
  · simp [h]
  · by_cases hok : respOk st
    · by_cases hst : body.status = some "success"
      · simp [hok, hst, h]
      · simp [hok, hst]
    · simp [hok]
  · by_cases hok : respOk st
    · simp [hok, h]
    · simp [hok]

/-- Witness for C3 at a 500 response with an empty body. -/
theorem C3_witness :
    fetchReports (FetchOutcome.response 500 { status := none, reports := none }) =
      SAMPLE_REPORTS :=
  C3_thm 500 { status := none, reports := none } (Or.inl (by decide))

/-- C4: after the delete handler runs for selected report id R, no
report with id R remains in the list, for both the resolving and the
throwing execution of the remote DELETE. -/
theorem C4_thm (selectedId : ℕ) (del : RemoteOutcome) (reports : List Report)
    (r : Report) (hr : r ∈ deleteOnPress selectedId del reports) :
    r.report_id ≠ selectedId := by
  cases del <;> simp only [deleteOnPress, List.mem_filter, decide_eq_true_eq] at hr <;>
    exact hr.2

/-- Witness for C4: a report with id 2 survives deleting id 1 under a
throwing DELETE, and its id differs from 1. -/
theorem C4_witness :
    ({ report_id := 2, latitude := 0, longitude := 0, probability := some 40,
       descriptor := "erratic", confirm_bool := "null", status := none } : Report).report_id
      ≠ 1 :=
  C4_thm 1 RemoteOutcome.throws
    [ { report_id := 1, latitude := 0, longitude := 0, probability := some 70,
        descriptor := "swerving", confirm_bool := "null", status := none },
      { report_id := 2, latitude := 0, longitude := 0, probability := some 40,
        descriptor := "erratic", confirm_bool := "null", status := none } ]
    _ (by decide)

/-- C5: in the location race, if the timer fires first (the position
has not resolved within 5000ms) the region equals the default fallback
location exactly; if the position resolves first the pending timer is
cleared (never fires) and the region is centred on the returned
coordinate with the standard deltas. -/
theorem C5_thm (s : LocState) (lat lng : ℚ) :
    (getLocation .granted .timerFirst s).region = DEFAULT_LOCATION ∧
    (getLocation .granted .timerFirst s).timerFired = true ∧
    (getLocation .granted (.resolvesFirst lat lng) s).timeoutPending = false ∧
    (getLocation .granted (.resolvesFirst lat lng) s).timerFired = false ∧
    (getLocation .granted (.resolvesFirst lat lng) s).region =
      { latitude := lat, longitude := lng,
        latitudeDelta := 222/10000, longitudeDelta := 121/10000 } :=
  ⟨rfl, rfl, rfl, rfl, rfl⟩

/-- C10: submitting with an empty description mutates nothing: the
police-view handler returns the list unchanged and issues no POST, and
the community-screen handler returns the list unchanged. -/
theorem C10_thm (reportType : String) (now : ℕ)
    (rProb rLat rLng regionLat regionLng : ℚ) (post : RemoteOutcome)
    (reports : List Report) (oldReports : List OldReport) :
    handleReportSubmitPolice reportType "" now rProb rLat rLng regionLat regionLng
        post reports = (reports, false) ∧
    handleReportSubmitExplore reportType "" now regionLat regionLng oldReports =
      oldReports := by
  constructor <;> simp [handleReportSubmitPolice, handleReportSubmitExplore]

/-- C7: the confirm action preserves the length of the report list,
rewrites every element whose id matches the selected id to the same
record with `confirm_bool` set to "safe" (a confirmed value, distinct
from "null") and leaves every other element unchanged at its position,
for both the resolving and the throwing execution of the remote PUT. -/
theorem C7_thm (selectedId : ℕ) (put : RemoteOutcome) (reports : List Report) :
    (confirmOnPress selectedId put reports).length = reports.length ∧
    (∀ i : ℕ, ∀ r : Report, reports.get? i = some r →
      (confirmOnPress selectedId put reports).get? i =
        some (if r.report_id = selectedId
              then { r with confirm_bool := "safe" } else r)) ∧
    (∀ r : Report, ({ r with confirm_bool := "safe" } : Report).confirm_bool ≠ "null") := by
  cases put <;>
    refine ⟨by simp [confirmOnPress], ?_, by intro r; simp⟩ <;>
    · intro i r hr
      rw [List.get?_eq_getElem?] at hr ⊢
      simp [confirmOnPress, List.getElem?_map, hr]

/-- Witness for C7: confirming id 1 in a two-element list rewrites the
element at index 0. -/
theorem C7_witness :
    (confirmOnPress 1 RemoteOutcome.throws
      [ { report_id := 1, latitude := 0, longitude := 0, probability := some 70,
          descriptor := "swerving", confirm_bool := "null", status := none },
        { report_id := 2, latitude := 0, longitude := 0, probability := some 40,
          descriptor := "erratic", confirm_bool := "null", status := none } ]).get? 0 =
      some (if ({ report_id := 1, latitude := 0, longitude := 0, probability := some 70,
                  descriptor := "swerving", confirm_bool := "null",
                  status := none } : Report).report_id = 1
            then { ({ report_id := 1, latitude := 0, longitude := 0, probability := some 70,
                      descriptor := "swerving", confirm_bool := "null",
                      status := none } : Report) with confirm_bool := "safe" }
            else { report_id := 1, latitude := 0, longitude := 0, probability := some 70,
                   descriptor := "swerving", confirm_bool := "null", status := none }) :=
  (C7_thm 1 RemoteOutcome.throws _).2.1 0 _ (by decide)

/-- C1 counterexample: in the citizen-view submit handler the prepend
sits after the awaited POST inside the try block, so with a non-empty
descriptor and a throwing POST the report list stays empty: no record
with the submitted descriptor is prepended. -/
theorem C1_counterexample :
    ("Vehicle swerving" : String) ≠ "" ∧
    (handleReportSubmitCitizen "Impaired Driving" "Vehicle swerving" 1744000000000
        (1/2) 0 0 RemoteOutcome.throws []).1 = [] := by
  exact ⟨by decide, by decide⟩

/-- C1 (amended): in the police-view submit handler a non-empty
type and descriptor always produce a prepend of the synthesized record,
for both the resolving and the throwing POST, and the new head carries
the submitted descriptor and a probability in [30, 70] (given a
Math.random draw in [0, 1)). -/
theorem C1_amended_thm (reportType reportDescription : String)
    (now : ℕ) (rProb rLat rLng regionLat regionLng : ℚ)
    (post : RemoteOutcome) (reports : List Report)
    (hty : reportType ≠ "") (hd : reportDescription ≠ "")
    (hr0 : 0 ≤ rProb) (hr1 : rProb < 1) :
    ∃ newR : Report,
      handleReportSubmitPolice reportType reportDescription now rProb rLat rLng
          regionLat regionLng post reports = (newR :: reports, true) ∧
      newR.descriptor = reportDescription ∧
      ∃ p : ℤ, newR.probability = some p ∧ 30 ≤ p ∧ p ≤ 70 := by
  refine ⟨mkNewReport now rProb rLat rLng regionLat regionLng reportDescription,
    ?_, rfl, randProbability rProb, rfl, ?_, ?_⟩
  · cases post <;> simp [handleReportSubmitPolice, hty, hd]
  · have h0 : (0 : ℤ) ≤ ⌊rProb * 41⌋ :=
      Int.floor_nonneg.mpr (mul_nonneg hr0 (by norm_num))
    unfold randProbability
    omega
  · have h41 : ⌊rProb * 41⌋ < 41 := by
      apply Int.floor_lt.mpr
      push_cast
      nlinarith
    unfold randProbability
    omega

/-- Witness for C1 (amended) under a throwing POST. -/
theorem C1_witness :
    ∃ newR : Report,
      handleReportSubmitPolice "Impaired Driving" "Vehicle swerving" 1744000000000
          (1/2) (1/2) (1/2) 37 (-122) RemoteOutcome.throws [] = (newR :: [], true) ∧
      newR.descriptor = "Vehicle swerving" ∧
      ∃ p : ℤ, newR.probability = some p ∧ 30 ≤ p ∧ p ≤ 70 :=
  C1_amended_thm _ _ 1744000000000 _ _ _ 37 (-122) RemoteOutcome.throws []
    (by decide) (by decide) (by norm_num) (by norm_num)

/-- C8: submitting a non-empty report in the police-view handler while
the region is at (lat, lng) prepends a record whose coordinates are
within the 0.005-degree jitter of the region centre, whose confirmation
state is "null", and whose generated id is strictly greater than every
id already in the list, assuming the Date.now() value exceeds all
present ids and the two Math.random jitter draws lie in [0, 1). -/
theorem C8_thm (reportType reportDescription : String)
    (now : ℕ) (rProb rLat rLng regionLat regionLng : ℚ)
    (post : RemoteOutcome) (reports : List Report)
    (hty : reportType ≠ "") (hd : reportDescription ≠ "")
    (ha0 : 0 ≤ rLat) (ha1 : rLat < 1) (hb0 : 0 ≤ rLng) (hb1 : rLng < 1)
    (hid : ∀ r ∈ reports, r.report_id < now) :
    ∃ newR : Report,
      (handleReportSubmitPolice reportType reportDescription now rProb rLat rLng
          regionLat regionLng post reports).1 = newR :: reports ∧
      |newR.latitude - regionLat| ≤ 1/200 ∧
      |newR.longitude - regionLng| ≤ 1/200 ∧
      newR.confirm_bool = "null" ∧
      newR.descriptor = reportDescription ∧
      ∀ r ∈ reports, r.report_id < newR.report_id := by
  refine ⟨mkNewReport now rProb rLat rLng regionLat regionLng reportDescription,
    ?_, ?_, ?_, rfl, rfl, ?_⟩
  · cases post <;> simp [handleReportSubmitPolice, hty, hd]
  · have e : (mkNewReport now rProb rLat rLng regionLat regionLng
        reportDescription).latitude - regionLat = (rLat - 1/2) * (1/100) := by
      simp [mkNewReport]
    rw [e, abs_le]
    constructor <;> nlinarith
  · have e : (mkNewReport now rProb rLat rLng regionLat regionLng
        reportDescription).longitude - regionLng = (rLng - 1/2) * (1/100) := by
      simp [mkNewReport]
    rw [e, abs_le]
    constructor <;> nlinarith
  · intro r hr
    simpa [mkNewReport] using hid r hr

/-- Witness for C8: submitting over a one-element list whose id is
smaller than the clock value. -/
theorem C8_witness :
    ∃ newR : Report,
      (handleReportSubmitPolice "Impaired Driving" "swerving near 5th Ave" 1744000000000
          (1/2) (1/2) (1/2) 37 (-122) RemoteOutcome.success
          [ { report_id := 5, latitude := 0, longitude := 0, probability := some 30,
              descriptor := "weaving", confirm_bool := "null", status := none } ]).1 =
        newR ::
          [ { report_id := 5, latitude := 0, longitude := 0, probability := some 30,
              descriptor := "weaving", confirm_bool := "null", status := none } ] ∧
      |newR.latitude - 37| ≤ 1/200 ∧
      |newR.longitude - (-122)| ≤ 1/200 ∧
      newR.confirm_bool = "null" ∧
      newR.descriptor = "swerving near 5th Ave" ∧
      ∀ r ∈ [ ({ report_id := 5, latitude := 0, longitude := 0, probability := some 30,
                 descriptor := "weaving", confirm_bool := "null",
                 status := none } : Report) ], r.report_id < newR.report_id :=
  C8_thm "Impaired Driving" "swerving near 5th Ave" 1744000000000 (1/2) (1/2) (1/2)
    37 (-122) RemoteOutcome.success _
    (by decide) (by decide) (by norm_num) (by norm_num) (by norm_num) (by norm_num)
    (by decide)

end HdMobile
